import Mathlib

/-
  Verification development for the PIOS system-call dispatch layer
  (kern/syscall.c).  The C code is shallowly embedded in Lean:

  * machine addresses and register values are `Nat`, with the 32-bit
    wrap behaviour made explicit where the C code depends on it;
  * user memory is a partial map `Nat → Option Nat` (a `none` cell page
    faults when touched);
  * the per-CPU recovery slot (`cpu->recover`) is a `Bool`
    (`true` = `sysrecover` installed, `false` = `NULL`);
  * the non-returning kernel exits (`systrap`/`proc_ret`, `proc_wait`,
    `panic`/failed `assert`) become constructors of explicit outcome
    types.

  Constants and collaborator functions that live in headers or modules
  outside the given sources (inc/vm.h, inc/syscall.h, inc/trap.h,
  kern/pmap.c, kern/proc.c) are parameterised or modelled from the
  specification; each such definition carries a doc comment saying so.
-/

namespace PiosSyscall

/-- Trap numbers, from the x86 architecture (inc/trap.h is not in the
excerpt): page fault and general protection fault. -/
def T_PGFLT : Nat := 14

/-- General protection fault trap number (x86). -/
def T_GPFLT : Nat := 13

/-- Modelled from the spec: the hardware error code pushed by a page
fault taken during an in-kernel user access.  Its concrete value is
irrelevant to every claim; we fix an arbitrary nonzero code so that it
is distinguishable from the `0` used by `checkva`'s synthetic traps. -/
def hwErr : Nat := 4

/-- Modelled from the spec: layout constants that come from headers not
present in the excerpt (inc/vm.h: VM_USERLO/VM_USERHI; inc/syscall.h:
CPUTS_MAX; inc/proc.h: offsetof(procstate, fx) and sizeof(procstate);
inc/mmu.h: the page-table and page granularities behind PTOFF/PGOFF).
All definitions are parameterised over this record. -/
structure Layout where
  userlo : Nat
  userhi : Nat
  cputsMax : Nat
  lenRegs : Nat
  lenAll : Nat
  ptSize : Nat
  pgSize : Nat
  deriving DecidableEq, Repr

/-- Sanity conditions on a layout, satisfied by any instantiation of the
missing headers: the user range is nonempty and fits in 32 bits, the
granularities are positive, and the integer-register prefix of the save
area is no longer than the whole save area. -/
def Layout.ok (L : Layout) : Prop :=
  0 < L.pgSize ∧ L.pgSize ∣ L.ptSize ∧ L.userlo < L.userhi ∧
    L.userhi < 2 ^ 32 ∧ 0 < L.cputsMax ∧ 0 < L.lenRegs ∧ L.lenRegs ≤ L.lenAll

instance (L : Layout) : Decidable L.ok := by
  unfold Layout.ok; infer_instance

/-- Sample layout used by the concrete witnesses.  The numeric values
are one consistent instantiation of the missing headers (user range
`[0x40000000, 0xf0000000)`, 4 KiB pages, 4 MiB page tables); no theorem
depends on these particular numbers. -/
def pios : Layout :=
  { userlo := 0x40000000, userhi := 0xf0000000, cputsMax := 256,
    lenRegs := 76, lenAll := 588, ptSize := 0x400000, pgSize := 0x1000 }

/-- The user trapframe, from inc/trap.h (modelled from the spec's
trapframe description: the registers kern/syscall.c reads, the
instruction/stack pointers, segment selectors, flags, and the trap
number / error code pair that `systrap` overwrites). -/
structure TF where
  eax : Nat
  ebx : Nat
  ecx : Nat
  edx : Nat
  esi : Nat
  edi : Nat
  eip : Nat
  esp : Nat
  cs : Nat
  ds : Nat
  es : Nat
  ss : Nat
  eflags : Nat
  trapno : Nat
  err : Nat
  deriving DecidableEq, Repr

/-- The trapframe rewrite performed by `systrap` (syscall.c:33-39):
overwrite `trapno` and `err` with the synthesized fault, leaving every
other field — in particular `eip` and `esp` — unchanged, before the
frame is reflected to the parent by `proc_ret`. -/
def systrapTF (utf : TF) (trapno errv : Nat) : TF :=
  { utf with trapno := trapno, err := errv }

/-- `checkva`'s failure condition (syscall.c:74): the C test
`uva < VM_USERLO || uva >= VM_USERHI || size >= VM_USERHI - uva` on
32-bit unsigned values.  The `||` short-circuits, so `VM_USERHI - uva`
is only evaluated when `uva < VM_USERHI`, where the unsigned subtraction
cannot wrap and agrees with truncated `Nat` subtraction. -/
def checkvaFail (L : Layout) (uva size : Nat) : Bool :=
  decide (uva < L.userlo) || decide (L.userhi ≤ uva) ||
    decide (L.userhi - uva ≤ size)

/-! ## Byte-level model of `usercopy` (syscall.c:81-95)

State for the copy primitive: the current process's user memory as a
byte-granular partial map, the per-CPU recovery slot, and the console
sink (for `do_cputs`). -/

structure CSt where
  umem : Nat → Option Nat
  recover : Bool
  cons : List Nat

/-- Outcome of `usercopy`: a normal return (carrying the final CPU/memory
state and, for copy-in, the bytes read into the kernel buffer), a
reflected trap (the rewritten user trapframe plus the state at the time
`sysrecover`/`systrap` fired), or a failed kernel assertion. -/
inductive UCOut where
  | ok : CSt → List Nat → UCOut
  | reflect : TF → CSt → UCOut
  | assertFail : UCOut

/-- The state carried by a `usercopy` outcome (`none` for a failed
assertion, which panics the kernel). -/
def ucSt : UCOut → Option CSt
  | UCOut.ok c _ => some c
  | UCOut.reflect _ c => some c
  | UCOut.assertFail => none

/-- `memmove(kva, (void*)uva, size)` reading user memory byte by byte
(syscall.c:91).  Returns `none` if any byte of `[uva, uva+size)` is
unmapped — the hardware would page fault there. -/
def copyInB (m : Nat → Option Nat) (uva : Nat) : Nat → Option (List Nat)
  | 0 => some []
  | n + 1 =>
    match m uva with
    | none => none
    | some b => (copyInB m (uva + 1) n).map (fun bs => b :: bs)

/-- `memmove((void*)uva, kva, size)` writing user memory byte by byte
(syscall.c:89).  Stops at the first unmapped byte (page fault), keeping
the writes already performed; the `Bool` is `true` iff the whole move
completed. -/
def copyOutB (m : Nat → Option Nat) (uva : Nat) :
    List Nat → (Nat → Option Nat) × Bool
  | [] => (m, true)
  | b :: bs =>
    match m uva with
    | none => (m, false)
    | some _ => copyOutB (fun a => if a = uva then some b else m a) (uva + 1) bs

/-- `usercopy(tf, copyout, kva, uva, size)` (syscall.c:81-95).

* `checkva` first: on violation, `systrap(utf, T_PGFLT, 0)` — the call
  never touches user memory or the recovery slot (syscall.c:72-76).
* `assert(c->recover == NULL)` (line 85): a second installation on the
  same CPU is a kernel assertion failure.
* The recovery handler is installed (line 86), the `memmove` runs, and
  every exit re-clears the slot: the normal path at line 94, the fault
  path inside `sysrecover` at line 59 (which then reflects the hardware
  trap number and error code via `systrap`). -/
def usercopyB (L : Layout) (tf : TF) (copyout : Bool) (kva : List Nat)
    (uva size : Nat) (c : CSt) : UCOut :=
  if checkvaFail L uva size then UCOut.reflect (systrapTF tf T_PGFLT 0) c
  else if c.recover then UCOut.assertFail
  else if copyout then
    match copyOutB c.umem uva (kva.take size) with
    | (m, true) => UCOut.ok { umem := m, recover := false, cons := c.cons } kva
    | (m, false) =>
        UCOut.reflect (systrapTF tf T_PGFLT hwErr)
          { umem := m, recover := false, cons := c.cons }
  else
    match copyInB c.umem uva size with
    | some bs => UCOut.ok { umem := c.umem, recover := false, cons := c.cons } bs
    | none =>
        UCOut.reflect (systrapTF tf T_PGFLT hwErr)
          { umem := c.umem, recover := false, cons := c.cons }

/-- Outcome of a `do_cputs` call: normal `trap_return`, reflected trap,
or failed assertion (propagated from `usercopy`). -/
inductive COut where
  | normal : CSt → COut
  | reflect : TF → CSt → COut
  | assertFail : COut

/-- `do_cputs` (syscall.c:97-106): copy exactly `CPUTS_MAX` bytes from
the user pointer in EBX into a kernel stack buffer via `usercopy`,
null-terminate the buffer (`buf[CPUTS_MAX] = 0`), hand the C string to
the console sink (`cprintf("%s", buf)` emits the bytes up to the first
NUL), and `trap_return`. -/
def do_cputs (L : Layout) (tf : TF) (c : CSt) : COut :=
  match usercopyB L tf false [] tf.ebx L.cputsMax c with
  | UCOut.assertFail => COut.assertFail
  | UCOut.reflect t c1 => COut.reflect t c1
  | UCOut.ok c1 bs =>
      COut.normal { c1 with cons := c1.cons ++ (bs ++ [0]).takeWhile (fun b => b != 0) }

/-! ## Command word and eflags constants

Modelled from the spec (inc/syscall.h and inc/x86.h are not in the
excerpt): a 32-bit command word with the type in bits [31:28], the
REGS/FPU/SNAP/START options in bits [27:24], the two-bit MEMOP selector
in bits [23:22] (NONE = 0, COPY, ZERO, MERGE), and PERM/RW in bits
[21:20].  The eflags masks are the x86 architectural bit positions; the
GDT selectors are one consistent choice of user-mode selectors. -/

def SYS_PUT : Nat := 0x10000000
def SYS_GET : Nat := 0x20000000
def SYS_REGS : Nat := 0x01000000
def SYS_FPU : Nat := 0x02000000
def SYS_SNAP : Nat := 0x04000000
def SYS_START : Nat := 0x08000000
def SYS_MEMOP : Nat := 0x00C00000
def SYS_COPY : Nat := 0x00400000
def SYS_ZERO : Nat := 0x00800000
def SYS_MERGE : Nat := 0x00C00000
def SYS_PERM : Nat := 0x00100000
def SYS_RW : Nat := 0x00200000

def FL_CF : Nat := 0x00000001
def FL_PF : Nat := 0x00000004
def FL_AF : Nat := 0x00000010
def FL_ZF : Nat := 0x00000040
def FL_SF : Nat := 0x00000080
def FL_IF : Nat := 0x00000200
def FL_DF : Nat := 0x00000400
def FL_OF : Nat := 0x00000800

/-- `FL_USER` (syscall.c:27): the eflags bits user code may set. -/
def FL_USER : Nat := FL_CF ||| FL_PF ||| FL_AF ||| FL_ZF ||| FL_SF ||| FL_DF ||| FL_OF

def CPU_GDT_UCODE : Nat := 0x18
def CPU_GDT_UDATA : Nat := 0x20

/-- `PTOFF(x)` (inc/mmu.h, modelled from the spec's "page-table
alignment"): the offset of `x` within its 4 MiB page table is nonzero. -/
def ptoff (L : Layout) (x : Nat) : Bool := decide (x % L.ptSize ≠ 0)

/-- `PGOFF(x)` (page-level alignment, used by the PERM step). -/
def pgoff (L : Layout) (x : Nat) : Bool := decide (x % L.pgSize ≠ 0)

/-- The memory-operation region check used by `do_put`/`do_get`
(syscall.c:160-162, 167-169, 248-250, 255-257):
`PTOFF(va) || PTOFF(size) || va < VM_USERLO || va > VM_USERHI ||
size > VM_USERHI - va` on 32-bit unsigned values.  The `||`
short-circuits, so `VM_USERHI - va` is only reached when
`va ≤ VM_USERHI`, where the subtraction cannot wrap. -/
def badRegionPT (L : Layout) (va size : Nat) : Bool :=
  ptoff L va || ptoff L size || decide (va < L.userlo) ||
    decide (L.userhi < va) || decide (L.userhi - va < size)

/-- The PERM-step region check (syscall.c:187-189, 279-281): identical
but with page-level (`PGOFF`) alignment. -/
def badRegionPg (L : Layout) (va size : Nat) : Bool :=
  pgoff L va || pgoff L size || decide (va < L.userlo) ||
    decide (L.userhi < va) || decide (L.userhi - va < size)

/-! ## Process model (handler level)

For the PUT/GET handlers the register save-area transfer is modelled at
the granularity of whole `procstate` records: user memory is a partial
map from addresses to `procstate` cells (a `none` cell faults), and "len
bytes" of a copy is represented by which part of the record moves —
`offsetof(procstate, fx)` bytes move exactly the trapframe part,
`sizeof(procstate)` bytes move the whole record. -/

inductive PSt where
  | stop
  | ready
  | run
  | wait
  deriving DecidableEq, Repr

/-- `procstate` (inc/proc.h, modelled from the spec): the trapframe part
followed by the opaque FPU block `fx` at offset `offsetof(procstate, fx)`. -/
structure ProcState where
  tf : TF
  fx : Nat
  deriving DecidableEq, Repr

/-- A page-map entry: the mapped page and its permission bits.  The
contents are opaque to kern/syscall.c; the handlers only move, clear and
re-permission entries through the pmap collaborators. -/
structure PEnt where
  page : Nat
  perm : Nat
  deriving DecidableEq, Repr

/-- An address space: every user virtual address maps to an entry. -/
abbrev PMap := Nat → PEnt

/-- Modelled from the spec: `pmap_remove(pdir, va, size)` removes the
mappings and permissions of `[va, va+size)`. -/
def pmap_remove (pd : PMap) (va size : Nat) : PMap :=
  fun a => if va ≤ a ∧ a < va + size then { page := 0, perm := 0 } else pd a

/-- Modelled from the spec: `pmap_copy(spd, sva, dpd, dva, size)`
share-maps the source range `[sva, sva+size)` of `spd` onto
`[dva, dva+size)` of `dpd`. -/
def pmap_copy (spd : PMap) (sva : Nat) (dpd : PMap) (dva size : Nat) : PMap :=
  fun a => if dva ≤ a ∧ a < dva + size then spd (sva + (a - dva)) else dpd a

/-- Modelled from the spec: `pmap_merge(rpd, lpd, sva, dpd, dva, size)`
three-way merges against the snapshot baseline `rpd` — wherever the
child's space `lpd` diverged from the baseline the child's entry wins,
elsewhere the destination keeps its own (the parent's) entry. -/
def pmap_merge (rpd lpd : PMap) (sva : Nat) (dpd : PMap) (dva size : Nat) : PMap :=
  fun a =>
    if dva ≤ a ∧ a < dva + size ∧ lpd (sva + (a - dva)) ≠ rpd (sva + (a - dva)) then
      lpd (sva + (a - dva))
    else dpd a

/-- Modelled from the spec: `pmap_setperm(pdir, va, size, rw)` sets the
permission bits over `[va, va+size)`.  Allocator exhaustion (its `false`
return, which kern/syscall.c turns into a panic) is outside this model:
the operation always succeeds. -/
def pmap_setperm (pd : PMap) (va size rw : Nat) : PMap :=
  fun a => if va ≤ a ∧ a < va + size then { pd a with perm := rw } else pd a

/-- A process as seen by the handlers: its state, register save-area,
active address space `pdir` and snapshot baseline `rpdir`. -/
structure Proc where
  state : PSt
  sv : ProcState
  pdir : PMap
  rpdir : PMap

def tfZero : TF :=
  { eax := 0, ebx := 0, ecx := 0, edx := 0, esi := 0, edi := 0, eip := 0,
    esp := 0, cs := 0, ds := 0, es := 0, ss := 0, eflags := 0, trapno := 0, err := 0 }

def psZero : ProcState := { tf := tfZero, fx := 0 }

def pmapZero : PMap := fun _ => { page := 0, perm := 0 }

/-- Modelled from the spec: the distinguished null process sentinel
(`proc_null`, kern/proc.c is not in the excerpt) — a read-only process
that is always in state STOP, resolved by GET on an empty child slot. -/
def procNull : Proc :=
  { state := PSt.stop, sv := psZero, pdir := pmapZero, rpdir := pmapZero }

/-- Modelled from the spec: the child returned by a successful
`proc_alloc(p, cn)` — a fresh process in state STOP owned by the caller
(allocator failure panics and is outside this model). -/
def procFresh : Proc :=
  { state := PSt.stop, sv := psZero, pdir := pmapZero, rpdir := pmapZero }

/-- One access to user memory performed by a handler, as recorded in the
model's access log: its direction, user address, length in bytes, and
whether the per-CPU recovery handler was installed while it ran. -/
structure UAcc where
  isWrite : Bool
  uva : Nat
  len : Nat
  guarded : Bool
  deriving DecidableEq, Repr

/-- Handler-level kernel state: the current (parent) process, its child
table, user memory as `procstate` cells, the per-CPU recovery slot, and
the log of user-memory accesses. -/
structure Sys where
  pproc : Proc
  child : Nat → Option Proc
  psmem : Nat → Option ProcState
  recover : Bool
  log : List UAcc

/-- Outcome of a PUT/GET handler: normal `trap_return`, a trap reflected
to the parent by `systrap`/`proc_ret`, the caller blocked in
`proc_wait`, or a kernel panic / failed assertion. -/
inductive SOut where
  | ok : Sys → SOut
  | reflect : TF → Sys → SOut
  | wait : Sys → SOut
  | panic : SOut

def SOut.bind : SOut → (Sys → SOut) → SOut
  | SOut.ok s, f => f s
  | SOut.reflect t s, _ => SOut.reflect t s
  | SOut.wait s, _ => SOut.wait s
  | SOut.panic, _ => SOut.panic

/-- The kernel state carried by a handler outcome (`none` on panic). -/
def SOut.sys : SOut → Option Sys
  | SOut.ok s => some s
  | SOut.reflect _ s => some s
  | SOut.wait s => some s
  | SOut.panic => none

/-- The reflected user trapframe of a handler outcome, if it is a trap. -/
def SOut.tfOf : SOut → Option TF
  | SOut.reflect t _ => some t
  | _ => none

/-- Whether a handler outcome is a normal `trap_return`. -/
def SOut.isOk : SOut → Bool
  | SOut.ok _ => true
  | _ => false

/-- Update the child in slot `cn` of a child table. -/
def chupd (t : Nat → Option Proc) (cn : Nat) (f : Proc → Proc) :
    Nat → Option Proc :=
  fun i => if i = cn then (t i).map f else t i

/-- `int len = offsetof(procstate, fx); if (cmd & SYS_FPU) len =
sizeof(procstate);` (syscall.c:136-137, 232-233). -/
def lenOf (L : Layout) (cmd : Nat) : Nat :=
  if cmd &&& SYS_FPU ≠ 0 then L.lenAll else L.lenRegs

/-- Writing `len` bytes of `src` over `old`: the whole record when the
FPU block is included, otherwise just the trapframe prefix (the old FPU
block survives). -/
def svWrite (old src : ProcState) (whole : Prop) [Decidable whole] : ProcState :=
  if whole then src else { tf := src.tf, fx := old.fx }

/-- The forced rewrite `do_put` applies to the child's saved trapframe
(syscall.c:145-150): user-mode segment selectors, eflags masked to the
user-settable bits, and the interrupt flag re-enabled. -/
def forceTF (t : TF) : TF :=
  { t with ds := CPU_GDT_UDATA ||| 3, es := CPU_GDT_UDATA ||| 3,
           cs := CPU_GDT_UCODE ||| 3, ss := CPU_GDT_UDATA ||| 3,
           eflags := (t.eflags &&& FL_USER) ||| FL_IF }

def forceSV (sv : ProcState) : ProcState := { sv with tf := forceTF sv.tf }

/-- The REGS step of `do_put` (syscall.c:135-151).

`usercopy(tf, 0, &cp->sv, tf->regs.ebx, len)` validates EBX with
`checkva` (page fault on violation), asserts the recovery slot free,
and performs the guarded copy-in (a fault there unwinds through
`sysrecover`).  The handler then repeats the same transfer with a raw
`memcpy(&cp->sv, cs, len)` — by that point `usercopy` has already
cleared the recovery slot (line 94), so the raw access is logged
unguarded; it reads the same still-mapped cell, so it cannot fault
here.  Finally the forced user-mode rewrite is applied to the child's
saved trapframe. -/
def putRegs (L : Layout) (tf : TF) (cmd cn : Nat) (s : Sys) : SOut :=
  if cmd &&& SYS_REGS = 0 then SOut.ok s
  else if checkvaFail L tf.ebx (lenOf L cmd) then
    SOut.reflect (systrapTF tf T_PGFLT 0) s
  else if s.recover then SOut.panic
  else
    match s.psmem tf.ebx with
    | none =>
        SOut.reflect (systrapTF tf T_PGFLT hwErr)
          { s with log := s.log ++ [⟨false, tf.ebx, lenOf L cmd, true⟩] }
    | some x =>
        SOut.ok
          { s with
            child := chupd s.child cn (fun c =>
              { c with sv :=
                  forceSV (svWrite (svWrite c.sv x (cmd &&& SYS_FPU ≠ 0)) x
                    (cmd &&& SYS_FPU ≠ 0)) }),
            log := s.log ++ [⟨false, tf.ebx, lenOf L cmd, true⟩,
                             ⟨false, tf.ebx, lenOf L cmd, false⟩] }

/-- The MEMOP step of `do_put` (syscall.c:152-183): a switch on the two
MEMOP bits with fall-through — COPY validates the source region, COPY
and ZERO validate the destination region, any failure reflects a general
protection fault; ZERO removes the destination range from the child's
`pdir`, COPY share-maps the caller's source range onto it; any other
MEMOP pattern reflects a general protection fault. -/
def putMemop (L : Layout) (tf : TF) (cmd cn : Nat) (s : Sys) : SOut :=
  if cmd &&& SYS_MEMOP = 0 then SOut.ok s
  else if cmd &&& SYS_MEMOP = SYS_COPY ∨ cmd &&& SYS_MEMOP = SYS_ZERO then
    if cmd &&& SYS_MEMOP = SYS_COPY ∧ badRegionPT L tf.esi tf.ecx = true then
      SOut.reflect (systrapTF tf T_GPFLT 0) s
    else if badRegionPT L tf.edi tf.ecx then
      SOut.reflect (systrapTF tf T_GPFLT 0) s
    else if cmd &&& SYS_MEMOP = SYS_ZERO then
      SOut.ok { s with child := chupd s.child cn (fun c =>
        { c with pdir := pmap_remove c.pdir tf.edi tf.ecx }) }
    else
      SOut.ok { s with child := chupd s.child cn (fun c =>
        { c with pdir := pmap_copy s.pproc.pdir tf.esi c.pdir tf.edi tf.ecx }) }
  else SOut.reflect (systrapTF tf T_GPFLT 0) s

/-- The PERM step of `do_put` (syscall.c:185-193): page-level validation
of the destination region (general protection fault on failure), then
set the RW permission over the child's range. -/
def putPerm (L : Layout) (tf : TF) (cmd cn : Nat) (s : Sys) : SOut :=
  if cmd &&& SYS_PERM = 0 then SOut.ok s
  else if badRegionPg L tf.edi tf.ecx then
    SOut.reflect (systrapTF tf T_GPFLT 0) s
  else
    SOut.ok { s with child := chupd s.child cn (fun c =>
      { c with pdir := pmap_setperm c.pdir tf.edi tf.ecx (cmd &&& SYS_RW) }) }

/-- The SNAP step of `do_put` (syscall.c:195-197): copy the child's full
user range from its `pdir` into its `rpdir`. -/
def putSnap (L : Layout) (cmd cn : Nat) (s : Sys) : Sys :=
  if cmd &&& SYS_SNAP ≠ 0 then
    { s with child := chupd s.child cn (fun c =>
      { c with rpdir :=
          pmap_copy c.pdir L.userlo c.rpdir L.userlo (L.userhi - L.userlo) }) }
  else s

/-- The START step of `do_put` (syscall.c:200-201): `proc_ready(cp)`
marks the child READY (collaborator contract, modelled from the spec). -/
def putStart (cmd cn : Nat) (s : Sys) : Sys :=
  if cmd &&& SYS_START ≠ 0 then
    { s with child := chupd s.child cn (fun c => { c with state := PSt.ready }) }
  else s

/-- Child resolution in `do_put` (syscall.c:117-123): mask the child
index to 8 bits and look up the slot, allocating a fresh child if it is
empty. -/
def allocChild (s : Sys) (cn : Nat) : Sys :=
  match s.child cn with
  | some _ => s
  | none => { s with child := fun i => if i = cn then some procFresh else s.child i }

/-- The process a child slot denotes (after `do_put` resolution the slot
is always occupied; the default is never reached there). -/
def getChild (s : Sys) (cn : Nat) : Proc := (s.child cn).getD procNull

/-- `do_put` (syscall.c:107-204): assert the caller is running, resolve
(allocating if needed) the child named by `EDX & 0xff`, block in
`proc_wait` unless the child is stopped, then run the REGS, MEMOP, PERM,
SNAP and START steps in order and `trap_return`. -/
def do_put (L : Layout) (tf : TF) (cmd : Nat) (s : Sys) : SOut :=
  if s.pproc.state ≠ PSt.run then SOut.panic
  else if (getChild (allocChild s (tf.edx % 256)) (tf.edx % 256)).state ≠ PSt.stop then
    SOut.wait (allocChild s (tf.edx % 256))
  else
    SOut.bind (SOut.bind (SOut.bind
      (putRegs L tf cmd (tf.edx % 256) (allocChild s (tf.edx % 256)))
      (putMemop L tf cmd (tf.edx % 256)))
      (putPerm L tf cmd (tf.edx % 256)))
      (fun s3 => SOut.ok (putStart cmd (tf.edx % 256) (putSnap L cmd (tf.edx % 256) s3)))

/-- Child resolution in `do_get` (syscall.c:216-219): look up the slot
named by `EDX & 0xff`; an empty slot resolves to the null process
sentinel — nothing is allocated. -/
def getResolve (s : Sys) (cn : Nat) : Proc :=
  match s.child cn with
  | some c => c
  | none => procNull

/-- The REGS step of `do_get` (syscall.c:231-238): the guarded
`usercopy(tf, 1, &cp->sv, tf->regs.ebx, len)` copy-out of the child's
save-area (checkva, recovery-slot assert, fault unwind), followed by the
raw `memcpy(cs, &cp->sv, len)` repeating the same transfer after the
recovery slot has been cleared — logged unguarded; the cell was just
written, so the raw store cannot fault here. -/
def getRegs (L : Layout) (tf : TF) (cmd : Nat) (cp : Proc) (s : Sys) : SOut :=
  if cmd &&& SYS_REGS = 0 then SOut.ok s
  else if checkvaFail L tf.ebx (lenOf L cmd) then
    SOut.reflect (systrapTF tf T_PGFLT 0) s
  else if s.recover then SOut.panic
  else
    match s.psmem tf.ebx with
    | none =>
        SOut.reflect (systrapTF tf T_PGFLT hwErr)
          { s with log := s.log ++ [⟨true, tf.ebx, lenOf L cmd, true⟩] }
    | some y =>
        SOut.ok
          { s with
            psmem := fun a => if a = tf.ebx then
                some (svWrite (svWrite y cp.sv (cmd &&& SYS_FPU ≠ 0)) cp.sv
                  (cmd &&& SYS_FPU ≠ 0))
              else s.psmem a,
            log := s.log ++ [⟨true, tf.ebx, lenOf L cmd, true⟩,
                             ⟨true, tf.ebx, lenOf L cmd, false⟩] }

/-- The MEMOP step of `do_get` (syscall.c:239-275): COPY and MERGE
validate the source region, all three validate the destination region
(general protection fault on failure); ZERO removes the destination
range from the caller's `pdir`, COPY share-maps the child's source range
onto it, MERGE three-way merges it against the child's `rpdir` baseline. -/
def getMemop (L : Layout) (tf : TF) (cmd : Nat) (cp : Proc) (s : Sys) : SOut :=
  if cmd &&& SYS_MEMOP = 0 then SOut.ok s
  else if cmd &&& SYS_MEMOP = SYS_COPY ∨ cmd &&& SYS_MEMOP = SYS_ZERO ∨
      cmd &&& SYS_MEMOP = SYS_MERGE then
    if (cmd &&& SYS_MEMOP = SYS_COPY ∨ cmd &&& SYS_MEMOP = SYS_MERGE) ∧
        badRegionPT L tf.esi tf.ecx = true then
      SOut.reflect (systrapTF tf T_GPFLT 0) s
    else if badRegionPT L tf.edi tf.ecx then
      SOut.reflect (systrapTF tf T_GPFLT 0) s
    else if cmd &&& SYS_MEMOP = SYS_ZERO then
      SOut.ok { s with pproc :=
        { s.pproc with pdir := pmap_remove s.pproc.pdir tf.edi tf.ecx } }
    else if cmd &&& SYS_MEMOP = SYS_COPY then
      SOut.ok { s with pproc :=
        { s.pproc with pdir := pmap_copy cp.pdir tf.esi s.pproc.pdir tf.edi tf.ecx } }
    else
      SOut.ok { s with pproc :=
        { s.pproc with pdir := pmap_merge cp.rpdir cp.pdir tf.esi s.pproc.pdir tf.edi tf.ecx } }
  else SOut.reflect (systrapTF tf T_GPFLT 0) s

/-- The PERM step of `do_get` (syscall.c:277-285): page-level validation
of the destination region, then set the RW permission over the caller's
range. -/
def getPerm (L : Layout) (tf : TF) (cmd : Nat) (s : Sys) : SOut :=
  if cmd &&& SYS_PERM = 0 then SOut.ok s
  else if badRegionPg L tf.edi tf.ecx then
    SOut.reflect (systrapTF tf T_GPFLT 0) s
  else
    SOut.ok { s with pproc :=
      { s.pproc with pdir := pmap_setperm s.pproc.pdir tf.edi tf.ecx (cmd &&& SYS_RW) } }

/-- `do_get` (syscall.c:206-290): assert the caller is running, resolve
the child slot (an empty slot resolves to the null process), block
unless the resolved process is stopped, then run the REGS, MEMOP and
PERM steps; a set SNAP bit — only valid on PUT — reflects a general
protection fault at the end (syscall.c:287-288); otherwise
`trap_return`. -/
def do_get (L : Layout) (tf : TF) (cmd : Nat) (s : Sys) : SOut :=
  if s.pproc.state ≠ PSt.run then SOut.panic
  else if (getResolve s (tf.edx % 256)).state ≠ PSt.stop then SOut.wait s
  else
    SOut.bind (SOut.bind (SOut.bind
      (getRegs L tf cmd (getResolve s (tf.edx % 256)) s)
      (getMemop L tf cmd (getResolve s (tf.edx % 256))))
      (getPerm L tf cmd))
      (fun s3 =>
        if cmd &&& SYS_SNAP ≠ 0 then SOut.reflect (systrapTF tf T_GPFLT 0) s3
        else SOut.ok s3)

/-- A PUT followed by a GET, keeping the final state only when both
complete normally (used for the register round-trip property). -/
def runPutGet (L : Layout) (tf1 : TF) (cmd1 : Nat) (tf2 : TF) (cmd2 : Nat)
    (s : Sys) : Option Sys :=
  match do_put L tf1 cmd1 s with
  | SOut.ok s1 =>
      match do_get L tf2 cmd2 s1 with
      | SOut.ok s2 => some s2
      | _ => none
  | _ => none

/-- The address-space content of a process: its `pdir` and `rpdir`. -/
def aspaces (p : Proc) : PMap × PMap := (p.pdir, p.rpdir)

/-- All address spaces reachable from a handler state: the caller's page
maps and those of every child slot.  Two states with equal `aspacesOf`
have unchanged page maps everywhere. -/
def aspacesOf (s : Sys) : (PMap × PMap) × (Nat → Option (PMap × PMap)) :=
  (aspaces s.pproc, fun i => (s.child i).map aspaces)

/-! ## Concrete fixtures used by the witnesses -/

/-- A fully mapped, zero-filled byte-level user memory state. -/
def cSample : CSt := { umem := fun _ => some 0, recover := false, cons := [] }

/-- A stopped child with a distinctive address space, for the witnesses. -/
def wChild : Proc :=
  { state := PSt.stop, sv := psZero,
    pdir := fun a => { page := a + 1, perm := 3 }, rpdir := pmapZero }

/-- A handler-level state: a running parent with `wChild` in slot 3 and
fully mapped user memory. -/
def wSys : Sys :=
  { pproc := { state := PSt.run, sv := psZero, pdir := pmapZero, rpdir := pmapZero },
    child := fun i => if i = 3 then some wChild else none,
    psmem := fun _ => some psZero, recover := false, log := [] }

/-- Like `wSys` but with every child slot empty. -/
def wSysNoChild : Sys :=
  { pproc := { state := PSt.run, sv := psZero, pdir := pmapZero, rpdir := pmapZero },
    child := fun _ => none,
    psmem := fun _ => some psZero, recover := false, log := [] }

/-- A trapframe addressing child slot 3 with user pointers inside the
sample user range. -/
def wTF : TF :=
  { tfZero with
    edx := 3
    ebx := 0x50000000
    esi := 0x40000000
    edi := 0x40400000
    eip := 0x1234
    esp := 0x5678 }

/-- A second trapframe naming the same child slot with a different user
save-area pointer (for the PUT/GET round-trip witness). -/
def wTF2 : TF := { tfZero with edx := 3, ebx := 0x60000000 }

/-- The bytes the witness CPUTS call reads (a fully zero buffer). -/
def wBS : List Nat := List.replicate 256 0

/-- Trapframe for the valid-pointer CPUTS witness. -/
def wTFa : TF := { tfZero with ebx := 0x40000000 }

/-- Trapframe for the bad-pointer CPUTS witness (`USERHI − 4`). -/
def wTFb : TF := { tfZero with ebx := 0xf0000000 - 4, eip := 0x1234, esp := 0x5678 }

/-! ## Helper lemmas -/

theorem copyInB_length (m : Nat → Option Nat) :
    ∀ n uva bs, copyInB m uva n = some bs → bs.length = n := by
  intro n
  induction n with
  | zero => intro uva bs h; cases h; rfl
  | succ k ih =>
    intro uva bs h
    unfold copyInB at h
    cases hm : m uva with
    | none => rw [hm] at h; cases h
    | some b =>
      rw [hm] at h
      cases hr : copyInB m (uva + 1) k with
      | none => rw [hr] at h; cases h
      | some tl =>
        rw [hr] at h
        cases h
        simp [ih (uva + 1) tl hr]

theorem takeWhile_append_zero (bs : List Nat) :
    ((bs ++ [0]).takeWhile (fun b => b != 0)).length ≤ bs.length := by
  induction bs with
  | nil => simp [List.takeWhile]
  | cons b tl ih =>
    by_cases hb : b = 0
    · subst hb; simp [List.takeWhile]
    · simp only [List.cons_append, List.takeWhile]
      have : (b != 0) = true := by simpa using hb
      rw [this]
      simpa using ih

theorem append_zero_getLast (bs : List Nat) : (bs ++ [0]).getLast? = some 0 := by
  induction bs with
  | nil => rfl
  | cons b tl ih => rw [List.cons_append, List.getLast?_cons, ih]; rfl

/-- The REGS step of PUT, when it completes, touches only the child's
save-area and the access log: the caller's and children's page maps, the
user memory, the recovery slot, and every child's process state are
unchanged. -/
theorem putRegs_ok_inv (L : Layout) (tf : TF) (cmd cn : Nat) (s s1 : Sys)
    (h : putRegs L tf cmd cn s = SOut.ok s1) :
    aspacesOf s1 = aspacesOf s ∧ s1.pproc = s.pproc ∧ s1.psmem = s.psmem ∧
      s1.recover = s.recover ∧
      (∀ i, (s1.child i).map Proc.state = (s.child i).map Proc.state) := by
  unfold putRegs at h
  split at h
  · cases h; exact ⟨rfl, rfl, rfl, rfl, fun i => rfl⟩
  · split at h
    · cases h
    · split at h
      · cases h
      · split at h
        · cases h
        · cases h
          refine ⟨?_, rfl, rfl, rfl, ?_⟩
          · unfold aspacesOf
            dsimp only
            congr 1
            funext i
            dsimp only [chupd]
            by_cases hi : i = cn
            · rw [if_pos hi]
              cases s.child i with
              | none => rfl
              | some c => rfl
            · rw [if_neg hi]
          · intro i
            dsimp only [chupd]
            by_cases hi : i = cn
            · rw [if_pos hi]
              cases s.child i with
              | none => rfl
              | some c => rfl
            · rw [if_neg hi]

/-- The REGS step of GET, when it completes, touches only user memory
and the access log: the caller, the child table, and the recovery slot
are unchanged. -/
theorem getRegs_ok_inv (L : Layout) (tf : TF) (cmd : Nat) (cp : Proc) (s s1 : Sys)
    (h : getRegs L tf cmd cp s = SOut.ok s1) :
    s1.pproc = s.pproc ∧ s1.child = s.child ∧ s1.recover = s.recover := by
  unfold getRegs at h
  split at h
  · cases h; exact ⟨rfl, rfl, rfl⟩
  · split at h
    · cases h
    · split at h
      · cases h
      · split at h
        · cases h
        · cases h; exact ⟨rfl, rfl, rfl⟩

/-- Every outcome of the GET REGS step, given a free recovery slot, is
either a completed copy or a reflected page fault; in both cases the
caller, the child table and the recovery slot are unchanged. -/
theorem getRegs_shape (L : Layout) (tf : TF) (cmd : Nat) (cp : Proc) (s : Sys)
    (hrec : s.recover = false) :
    (∃ s1, getRegs L tf cmd cp s = SOut.ok s1 ∧ s1.pproc = s.pproc ∧
      s1.child = s.child ∧ s1.recover = s.recover) ∨
    (∃ t s1, getRegs L tf cmd cp s = SOut.reflect t s1 ∧ t.trapno = T_PGFLT ∧
      s1.pproc = s.pproc ∧ s1.child = s.child ∧ s1.recover = s.recover) := by
  unfold getRegs
  split
  · exact Or.inl ⟨s, rfl, rfl, rfl, rfl⟩
  · split
    · exact Or.inr ⟨_, s, rfl, rfl, rfl, rfl, rfl⟩
    · split
      · exact absurd (by assumption : s.recover = true) (by simp [hrec])
      · split
        · exact Or.inr ⟨_, _, rfl, rfl, rfl, rfl, rfl⟩
        · exact Or.inl ⟨_, rfl, rfl, rfl, rfl⟩

/-- Every outcome of the GET MEMOP step is either a completed page-map
operation on the caller's `pdir` (child table, user memory, recovery
slot and log unchanged) or a reflected general protection fault with the
whole state unchanged. -/
theorem getMemop_shape (L : Layout) (tf : TF) (cmd : Nat) (cp : Proc) (s : Sys) :
    (∃ s1, getMemop L tf cmd cp s = SOut.ok s1 ∧ s1.child = s.child ∧
      s1.psmem = s.psmem ∧ s1.recover = s.recover) ∨
    getMemop L tf cmd cp s = SOut.reflect (systrapTF tf T_GPFLT 0) s := by
  unfold getMemop
  split
  · exact Or.inl ⟨s, rfl, rfl, rfl, rfl⟩
  · split
    · split
      · exact Or.inr rfl
      · split
        · exact Or.inr rfl
        · split
          · exact Or.inl ⟨_, rfl, rfl, rfl, rfl⟩
          · split
            · exact Or.inl ⟨_, rfl, rfl, rfl, rfl⟩
            · exact Or.inl ⟨_, rfl, rfl, rfl, rfl⟩
    · exact Or.inr rfl

/-- Every outcome of the GET PERM step is either a completed permission
update on the caller's `pdir` (child table unchanged) or a reflected
general protection fault with the whole state unchanged. -/
theorem getPerm_shape (L : Layout) (tf : TF) (cmd : Nat) (s : Sys) :
    (∃ s1, getPerm L tf cmd s = SOut.ok s1 ∧ s1.child = s.child ∧
      s1.psmem = s.psmem ∧ s1.recover = s.recover) ∨
    getPerm L tf cmd s = SOut.reflect (systrapTF tf T_GPFLT 0) s := by
  unfold getPerm
  split
  · exact Or.inl ⟨s, rfl, rfl, rfl, rfl⟩
  · split
    · exact Or.inr rfl
    · exact Or.inl ⟨_, rfl, rfl, rfl, rfl⟩

/-- `do_get` never touches the caller's child table: whatever the
outcome, the table (hence every child object in it) is unchanged. -/
theorem do_get_child_pres (L : Layout) (tf : TF) (cmd : Nat) (s : Sys)
    (hrec : s.recover = false) :
    ∀ s1, (do_get L tf cmd s).sys = some s1 → s1.child = s.child := by
  intro s1 h
  unfold do_get at h
  split at h
  · cases h
  · split at h
    · simp only [SOut.sys, Option.some.injEq] at h
      rw [← h]
    · rcases getRegs_shape L tf cmd (getResolve s (tf.edx % 256)) s hrec with
        ⟨sa, ea, _, eac, _⟩ | ⟨t, sa, ea, _, _, eac, _⟩
      · rw [ea] at h
        simp only [SOut.bind] at h
        rcases getMemop_shape L tf cmd (getResolve s (tf.edx % 256)) sa with
          ⟨sb, eb, ebc, _, _⟩ | eb
        · rw [eb] at h
          simp only [SOut.bind] at h
          rcases getPerm_shape L tf cmd sb with ⟨sc, ec, ecc, _, _⟩ | ec
          · rw [ec] at h
            simp only [SOut.bind] at h
            split at h <;>
              (simp only [SOut.sys, Option.some.injEq] at h;
               rw [← h, ecc, ebc, eac])
          · rw [ec] at h
            simp only [SOut.bind, SOut.sys, Option.some.injEq] at h
            rw [← h, ebc, eac]
        · rw [eb] at h
          simp only [SOut.bind, SOut.sys, Option.some.injEq] at h
          rw [← h, eac]
      · rw [ea] at h
        simp only [SOut.bind, SOut.sys, Option.some.injEq] at h
        rw [← h, eac]

/-! ## The claims -/

/-- C1 counterexample.  The claim asserts that `usercopy`'s validation
succeeds exactly when `USERLO ≤ uva` and `uva + size ≤ USERHI`.  At
`uva = USERLO`, `size = USERHI − USERLO` both conditions hold, yet the
code's `size >= VM_USERHI - uva` test (syscall.c:74) fires and the call
reflects a page fault instead of performing the copy. -/
theorem claim_C1_counterexample :
    pios.userlo ≤ pios.userlo ∧
    pios.userlo + (pios.userhi - pios.userlo) ≤ pios.userhi ∧
    usercopyB pios tfZero false [] pios.userlo (pios.userhi - pios.userlo) cSample =
      UCOut.reflect (systrapTF tfZero T_PGFLT 0) cSample :=
  ⟨Nat.le_refl _, by decide, rfl⟩

/-- C1 (amended): validation succeeds exactly when `USERLO ≤ uva` and
`uva + size < USERHI` (strictly; the wrap-safe test `size ≥ USERHI − uva`
of syscall.c:74 rejects `uva + size = USERHI`).  In particular every
range whose `uva + size` overflows the 32-bit address type is rejected,
and on any violation the call does not return normally: it reflects a
`T_PGFLT` trap to the parent with the state — in particular all user
memory — untouched. -/
theorem claim_C1_amended (L : Layout) (tf : TF) (d : Bool) (kva : List Nat)
    (uva size : Nat) (c : CSt) :
    (checkvaFail L uva size = false ↔ L.userlo ≤ uva ∧ uva + size < L.userhi) ∧
    (L.userhi < 2 ^ 32 → 2 ^ 32 ≤ uva + size → checkvaFail L uva size = true) ∧
    (checkvaFail L uva size = true →
      usercopyB L tf d kva uva size c = UCOut.reflect (systrapTF tf T_PGFLT 0) c) := by
  refine ⟨?_, ?_, ?_⟩
  · simp only [checkvaFail, Bool.or_eq_false_iff, decide_eq_false_iff_not, not_lt, not_le]
    omega
  · intro h1 h2
    cases hcv : checkvaFail L uva size with
    | true => rfl
    | false =>
      have := (by
        simpa only [checkvaFail, Bool.or_eq_false_iff, decide_eq_false_iff_not,
          not_lt, not_le] using hcv : (L.userlo ≤ uva ∧ uva < L.userhi) ∧
            size < L.userhi - uva)
      omega
  · intro h
    unfold usercopyB
    rw [if_pos h]

/-- C1 amended, witness: a concrete in-range copy passes validation and
a concrete violating call reflects `T_PGFLT` with the state untouched. -/
theorem claim_C1_amended_witness :
    checkvaFail pios 0x40000000 16 = false ∧
    usercopyB pios tfZero false [] 0 16 cSample =
      UCOut.reflect (systrapTF tfZero T_PGFLT 0) cSample :=
  ⟨(claim_C1_amended pios tfZero false [] 0x40000000 16 cSample).1.mpr (by decide),
   (claim_C1_amended pios tfZero false [] 0 16 cSample).2.2 (by decide)⟩

/-- C2: `usercopy` never returns with the per-CPU recovery handler still
installed — on every exit path that yields a state (normal return or
fault unwind through `sysrecover`) the recovery slot is `NULL` again;
and installation is strictly nested: if a handler is already installed
when `usercopy` reaches its install point, the `assert(c->recover ==
NULL)` of syscall.c:85 fails. -/
theorem claim_C2_recover_nesting (L : Layout) (tf : TF) (d : Bool)
    (kva : List Nat) (uva size : Nat) (c : CSt) :
    (c.recover = false → ∀ c2, ucSt (usercopyB L tf d kva uva size c) = some c2 →
      c2.recover = false) ∧
    (c.recover = true → checkvaFail L uva size = false →
      usercopyB L tf d kva uva size c = UCOut.assertFail) := by
  constructor
  · intro hr c2 h
    unfold usercopyB at h
    split at h
    · simp only [ucSt, Option.some.injEq] at h
      rw [← h]; exact hr
    · split at h
      · simp [ucSt] at h
      · split at h
        · split at h <;>
            (simp only [ucSt, Option.some.injEq] at h; rw [← h])
        · split at h <;>
            (simp only [ucSt, Option.some.injEq] at h; rw [← h])
  · intro hr hcv
    unfold usercopyB
    rw [if_neg (by simp [hcv]), if_pos hr]

/-- C2 witness: concrete calls showing the cleared slot on exit and the
failed assertion on nested installation. -/
theorem claim_C2_recover_nesting_witness :
    cSample.recover = false ∧
    usercopyB pios tfZero false [] 0x40000000 4 { cSample with recover := true } =
      UCOut.assertFail :=
  ⟨(claim_C2_recover_nesting pios tfZero false [] 0x40000000 4 cSample).1 rfl
      cSample rfl,
   (claim_C2_recover_nesting pios tfZero false [] 0x40000000 4
      { cSample with recover := true }).2 rfl (by decide)⟩

/-- C9: a CPUTS call whose `checkva` validation passes and whose source
range is mapped copies exactly `CPUTS_MAX` bytes from the user pointer
in EBX, null-terminates the kernel buffer (its last byte is 0), forwards
at most `CPUTS_MAX` bytes to the console sink, and returns control to
the caller normally; and a CPUTS call with user pointer `USERHI − 4`
instead fails validation (since `CPUTS_MAX ≥ 4`), produces no console
output, and reflects a `T_PGFLT` trap to the parent with the caller's
original EIP and ESP preserved in the trapframe. -/
theorem claim_C9_cputs :
    (∀ (L : Layout) (tf : TF) (c : CSt) (bs : List Nat),
      c.recover = false →
      checkvaFail L tf.ebx L.cputsMax = false →
      copyInB c.umem tf.ebx L.cputsMax = some bs →
      do_cputs L tf c =
        COut.normal
          { c with cons := c.cons ++ (bs ++ [0]).takeWhile (fun b => b != 0) } ∧
      bs.length = L.cputsMax ∧
      ((bs ++ [0]).takeWhile (fun b => b != 0)).length ≤ L.cputsMax ∧
      (bs ++ [0]).getLast? = some 0) ∧
    (∀ (L : Layout) (tf : TF) (c : CSt),
      4 ≤ L.userhi → 4 ≤ L.cputsMax → tf.ebx = L.userhi - 4 →
      do_cputs L tf c = COut.reflect (systrapTF tf T_PGFLT 0) c ∧
      (systrapTF tf T_PGFLT 0).eip = tf.eip ∧
      (systrapTF tf T_PGFLT 0).esp = tf.esp ∧
      (systrapTF tf T_PGFLT 0).trapno = T_PGFLT) := by
  constructor
  · intro L tf c bs hr hcv hbs
    obtain ⟨um, rc, co⟩ := c
    simp only at hr hbs
    subst hr
    refine ⟨?_, copyInB_length _ _ _ _ hbs,
      le_trans (takeWhile_append_zero bs)
        (le_of_eq (copyInB_length _ _ _ _ hbs)), append_zero_getLast bs⟩
    simp [do_cputs, usercopyB, hcv, hbs]
  · intro L tf c h4 hcm hebx
    have hcv : checkvaFail L tf.ebx L.cputsMax = true := by
      simp only [checkvaFail, Bool.or_eq_true, decide_eq_true_eq]
      right
      omega
    refine ⟨?_, rfl, rfl, rfl⟩
    unfold do_cputs usercopyB
    rw [if_pos hcv]

set_option maxRecDepth 4096

/-- C9 witness: the two CPUTS behaviours at concrete inputs — a valid
pointer prints the (empty) string and returns normally; the pointer
`USERHI − 4` reflects a page fault with EIP/ESP intact. -/
theorem claim_C9_cputs_witness :
    (do_cputs pios wTFa cSample =
      COut.normal
        { cSample with
          cons := cSample.cons ++ (wBS ++ [0]).takeWhile (fun b => b != 0) } ∧
      wBS.length = pios.cputsMax ∧
      ((wBS ++ [0]).takeWhile (fun b => b != 0)).length ≤ pios.cputsMax ∧
      (wBS ++ [0]).getLast? = some 0) ∧
    (do_cputs pios wTFb cSample = COut.reflect (systrapTF wTFb T_PGFLT 0) cSample ∧
      (systrapTF wTFb T_PGFLT 0).eip = wTFb.eip ∧
      (systrapTF wTFb T_PGFLT 0).esp = wTFb.esp ∧
      (systrapTF wTFb T_PGFLT 0).trapno = T_PGFLT) :=
  ⟨claim_C9_cputs.1 pios wTFa cSample wBS rfl (by decide) (by decide),
   claim_C9_cputs.2 pios wTFb cSample (by decide) (by decide) rfl⟩

theorem chupd_self (t : Nat → Option Proc) (cn : Nat) (f : Proc → Proc) :
    chupd t cn f cn = (t cn).map f := by
  unfold chupd
  rw [if_pos rfl]

/-- After the SNAP and START steps of `do_put`, the child's `rpdir`
agrees with its `pdir` on every address of the user range: SNAP copied
`pdir` over `rpdir` there (syscall.c:195-197) and START only changes the
child's scheduling state. -/
theorem snapStart_rpdir (L : Layout) (cmd cn : Nat) (s3 : Sys)
    (hsnap : cmd &&& SYS_SNAP ≠ 0) (a : Nat)
    (hlo : L.userlo ≤ a) (hhi : a < L.userhi) :
    (getChild (putStart cmd cn (putSnap L cmd cn s3)) cn).rpdir a =
    (getChild (putStart cmd cn (putSnap L cmd cn s3)) cn).pdir a := by
  unfold putStart putSnap getChild
  rw [if_pos hsnap]
  by_cases hst : cmd &&& SYS_START ≠ 0
  · rw [if_pos hst]
    dsimp only
    rw [chupd_self, chupd_self]
    cases s3.child cn with
    | none => rfl
    | some c3 =>
      dsimp only [Option.map, Option.getD]
      unfold pmap_copy
      rw [if_pos ⟨hlo, by omega⟩]
      have harith : L.userlo + (a - L.userlo) = a := by omega
      rw [harith]
  · rw [if_neg hst]
    dsimp only
    rw [chupd_self]
    cases s3.child cn with
    | none => rfl
    | some c3 =>
      dsimp only [Option.map, Option.getD]
      unfold pmap_copy
      rw [if_pos ⟨hlo, by omega⟩]
      have harith : L.userlo + (a - L.userlo) = a := by omega
      rw [harith]

/-- C8: after every PUT with the SNAP bit that completes normally, the
addressed child's reference address space `rpdir` equals its active
address space `pdir` pagewise over the whole user range
`[USERLO, USERHI)` — a fresh three-way-merge baseline. -/
theorem claim_C8_snap_baseline (L : Layout) (tf : TF) (cmd : Nat) (s s1 : Sys)
    (hsnap : cmd &&& SYS_SNAP ≠ 0)
    (h : do_put L tf cmd s = SOut.ok s1) :
    ∀ a, L.userlo ≤ a → a < L.userhi →
      (getChild s1 (tf.edx % 256)).rpdir a = (getChild s1 (tf.edx % 256)).pdir a := by
  intro a hlo hhi
  unfold do_put at h
  split at h
  · cases h
  · split at h
    · cases h
    · cases h1 : putRegs L tf cmd (tf.edx % 256) (allocChild s (tf.edx % 256)) with
      | ok sa =>
        rw [h1] at h
        simp only [SOut.bind] at h
        cases h2 : putMemop L tf cmd (tf.edx % 256) sa with
        | ok sb =>
          rw [h2] at h
          simp only [SOut.bind] at h
          cases h3 : putPerm L tf cmd (tf.edx % 256) sb with
          | ok sc =>
            rw [h3] at h
            simp only [SOut.bind] at h
            cases h
            exact snapStart_rpdir L cmd (tf.edx % 256) sc hsnap a hlo hhi
          | reflect t sx => rw [h3] at h; simp only [SOut.bind] at h; cases h
          | wait sx => rw [h3] at h; simp only [SOut.bind] at h; cases h
          | panic => rw [h3] at h; simp only [SOut.bind] at h; cases h
        | reflect t sx => rw [h2] at h; simp only [SOut.bind] at h; cases h
        | wait sx => rw [h2] at h; simp only [SOut.bind] at h; cases h
        | panic => rw [h2] at h; simp only [SOut.bind] at h; cases h
      | reflect t sx => rw [h1] at h; simp only [SOut.bind] at h; cases h
      | wait sx => rw [h1] at h; simp only [SOut.bind] at h; cases h
      | panic => rw [h1] at h; simp only [SOut.bind] at h; cases h

/-- C8 witness: a concrete successful PUT with SNAP leaves the child
with `rpdir = pdir` at a sample user address. -/
theorem claim_C8_snap_baseline_witness :
    (getChild ((do_put pios wTF (SYS_PUT ||| SYS_SNAP) wSys).sys.getD wSys)
        (wTF.edx % 256)).rpdir 0x40000000 =
    (getChild ((do_put pios wTF (SYS_PUT ||| SYS_SNAP) wSys).sys.getD wSys)
        (wTF.edx % 256)).pdir 0x40000000 :=
  claim_C8_snap_baseline pios wTF (SYS_PUT ||| SYS_SNAP) wSys
    ((do_put pios wTF (SYS_PUT ||| SYS_SNAP) wSys).sys.getD wSys)
    (by decide) rfl 0x40000000 (by decide) (by decide)

/-- C3: in a PUT or GET whose execution reaches the memory-operation
step with MEMOP ≠ NONE (COPY or ZERO on PUT; COPY, ZERO or MERGE on
GET — the GET source check also covers MERGE), any failure of the
page-table-aligned, wrap-safe region validation of the destination — or
of the source, for the source-taking operations — reflects a
`T_GPFLT` trap to the parent and leaves every address space (the
caller's and all children's page maps) unchanged. -/
theorem claim_C3_memop_validation :
    (∀ (L : Layout) (tf : TF) (cmd : Nat) (s : Sys) (c : Proc) (s1 : Sys),
      s.pproc.state = PSt.run →
      s.child (tf.edx % 256) = some c →
      c.state = PSt.stop →
      putRegs L tf cmd (tf.edx % 256) s = SOut.ok s1 →
      (cmd &&& SYS_MEMOP = SYS_COPY ∨ cmd &&& SYS_MEMOP = SYS_ZERO) →
      (badRegionPT L tf.edi tf.ecx = true ∨
        (cmd &&& SYS_MEMOP = SYS_COPY ∧ badRegionPT L tf.esi tf.ecx = true)) →
      (do_put L tf cmd s).tfOf = some (systrapTF tf T_GPFLT 0) ∧
      (do_put L tf cmd s).sys.map aspacesOf = some (aspacesOf s)) ∧
    (∀ (L : Layout) (tf : TF) (cmd : Nat) (s s1 : Sys),
      s.pproc.state = PSt.run →
      (getResolve s (tf.edx % 256)).state = PSt.stop →
      getRegs L tf cmd (getResolve s (tf.edx % 256)) s = SOut.ok s1 →
      (cmd &&& SYS_MEMOP = SYS_COPY ∨ cmd &&& SYS_MEMOP = SYS_ZERO ∨
        cmd &&& SYS_MEMOP = SYS_MERGE) →
      (badRegionPT L tf.edi tf.ecx = true ∨
        ((cmd &&& SYS_MEMOP = SYS_COPY ∨ cmd &&& SYS_MEMOP = SYS_MERGE) ∧
          badRegionPT L tf.esi tf.ecx = true)) →
      (do_get L tf cmd s).tfOf = some (systrapTF tf T_GPFLT 0) ∧
      (do_get L tf cmd s).sys.map aspacesOf = some (aspacesOf s)) := by
  constructor
  · intro L tf cmd s c s1 hrun hc hstop hregs hm hbad
    have hAlloc : allocChild s (tf.edx % 256) = s := by
      unfold allocChild; rw [hc]
    have hMem : putMemop L tf cmd (tf.edx % 256) s1 =
        SOut.reflect (systrapTF tf T_GPFLT 0) s1 := by
      unfold putMemop
      rw [if_neg (by rcases hm with h | h <;> rw [h] <;> decide), if_pos hm]
      rcases hbad with hbd | hbs
      · by_cases hsrc : cmd &&& SYS_MEMOP = SYS_COPY ∧ badRegionPT L tf.esi tf.ecx = true
        · rw [if_pos hsrc]
        · rw [if_neg hsrc, if_pos hbd]
      · rw [if_pos hbs]
    unfold do_put
    rw [hAlloc, if_neg (by simp [hrun]), if_neg (by simp [getChild, hc, hstop]), hregs]
    simp only [SOut.bind]
    rw [hMem]
    simp only [SOut.bind, SOut.tfOf, SOut.sys, Option.map]
    refine ⟨trivial, ?_⟩
    rw [(putRegs_ok_inv L tf cmd _ s s1 hregs).1]
  · intro L tf cmd s s1 hrun hstop hregs hm hbad
    have hMem : getMemop L tf cmd (getResolve s (tf.edx % 256)) s1 =
        SOut.reflect (systrapTF tf T_GPFLT 0) s1 := by
      unfold getMemop
      rw [if_neg (by rcases hm with h | h | h <;> rw [h] <;> decide), if_pos hm]
      rcases hbad with hbd | hbs
      · by_cases hsrc : (cmd &&& SYS_MEMOP = SYS_COPY ∨ cmd &&& SYS_MEMOP = SYS_MERGE) ∧
            badRegionPT L tf.esi tf.ecx = true
        · rw [if_pos hsrc]
        · rw [if_neg hsrc, if_pos hbd]
      · rw [if_pos hbs]
    unfold do_get
    rw [if_neg (by simp [hrun]), if_neg (by simp [hstop]), hregs]
    simp only [SOut.bind]
    rw [hMem]
    simp only [SOut.bind, SOut.tfOf, SOut.sys, Option.map]
    refine ⟨trivial, ?_⟩
    obtain ⟨e1, e2, _⟩ := getRegs_ok_inv L tf cmd _ s s1 hregs
    unfold aspacesOf
    rw [e1, e2]

/-- Trapframe with a page-table-misaligned destination region. -/
def wTFbad : TF := { tfZero with edx := 3, edi := 5, ecx := 0x400000 }

/-- C3 witness: a PUT ZERO and a GET ZERO with misaligned destination
address 5 both reflect `T_GPFLT` with all address spaces unchanged. -/
theorem claim_C3_memop_validation_witness :
    ((do_put pios wTFbad (SYS_PUT ||| SYS_ZERO) wSys).tfOf =
        some (systrapTF wTFbad T_GPFLT 0) ∧
      (do_put pios wTFbad (SYS_PUT ||| SYS_ZERO) wSys).sys.map aspacesOf =
        some (aspacesOf wSys)) ∧
    ((do_get pios wTFbad (SYS_GET ||| SYS_ZERO) wSys).tfOf =
        some (systrapTF wTFbad T_GPFLT 0) ∧
      (do_get pios wTFbad (SYS_GET ||| SYS_ZERO) wSys).sys.map aspacesOf =
        some (aspacesOf wSys)) :=
  ⟨claim_C3_memop_validation.1 pios wTFbad (SYS_PUT ||| SYS_ZERO) wSys wChild wSys
      rfl rfl rfl rfl (Or.inr (by decide)) (Or.inl (by decide)),
   claim_C3_memop_validation.2 pios wTFbad (SYS_GET ||| SYS_ZERO) wSys wSys
      rfl rfl rfl (Or.inr (Or.inl (by decide))) (Or.inl (by decide))⟩

/-- C4: a PUT whose two MEMOP bits are neither NONE, COPY nor ZERO — the
only remaining two-bit pattern being MERGE, valid only on GET — reflects
a `T_GPFLT` trap to the parent (the `default` arm of the switch,
syscall.c:181-182) and performs no page-map operation: every address
space is unchanged. -/
theorem claim_C4_put_invalid_memop (L : Layout) (tf : TF) (cmd : Nat)
    (s : Sys) (c : Proc) (s1 : Sys)
    (hrun : s.pproc.state = PSt.run)
    (hc : s.child (tf.edx % 256) = some c)
    (hstop : c.state = PSt.stop)
    (hregs : putRegs L tf cmd (tf.edx % 256) s = SOut.ok s1)
    (hm0 : cmd &&& SYS_MEMOP ≠ 0)
    (hmc : cmd &&& SYS_MEMOP ≠ SYS_COPY)
    (hmz : cmd &&& SYS_MEMOP ≠ SYS_ZERO) :
    (do_put L tf cmd s).tfOf = some (systrapTF tf T_GPFLT 0) ∧
    (do_put L tf cmd s).sys.map aspacesOf = some (aspacesOf s) := by
  have hAlloc : allocChild s (tf.edx % 256) = s := by
    unfold allocChild; rw [hc]
  have hMem : putMemop L tf cmd (tf.edx % 256) s1 =
      SOut.reflect (systrapTF tf T_GPFLT 0) s1 := by
    unfold putMemop
    rw [if_neg hm0, if_neg (fun h => h.elim hmc hmz)]
  unfold do_put
  rw [hAlloc, if_neg (by simp [hrun]), if_neg (by simp [getChild, hc, hstop]), hregs]
  simp only [SOut.bind]
  rw [hMem]
  simp only [SOut.bind, SOut.tfOf, SOut.sys, Option.map]
  refine ⟨trivial, ?_⟩
  rw [(putRegs_ok_inv L tf cmd _ s s1 hregs).1]

/-- C4 witness: a concrete PUT carrying the MERGE bit pattern reflects
`T_GPFLT` with all address spaces unchanged. -/
theorem claim_C4_put_invalid_memop_witness :
    (do_put pios wTF (SYS_PUT ||| SYS_MERGE) wSys).tfOf =
      some (systrapTF wTF T_GPFLT 0) ∧
    (do_put pios wTF (SYS_PUT ||| SYS_MERGE) wSys).sys.map aspacesOf =
      some (aspacesOf wSys) :=
  claim_C4_put_invalid_memop pios wTF (SYS_PUT ||| SYS_MERGE) wSys wChild wSys
    rfl rfl rfl rfl (by decide) (by decide) (by decide)

/-- C5: a GET carrying the SNAP bit — valid only on PUT — whose REGS
step does not fault reflects a `T_GPFLT` trap to the parent (either from
a failed MEMOP/PERM validation or, at the latest, from the final SNAP
check of syscall.c:287-288), and the caller's child table — hence the
child and all of its state — is unchanged by the call. -/
theorem claim_C5_get_snap_rejected (L : Layout) (tf : TF) (cmd : Nat)
    (s s1 : Sys)
    (hrun : s.pproc.state = PSt.run)
    (hstop : (getResolve s (tf.edx % 256)).state = PSt.stop)
    (hregs : getRegs L tf cmd (getResolve s (tf.edx % 256)) s = SOut.ok s1)
    (hsnap : cmd &&& SYS_SNAP ≠ 0) :
    ((do_get L tf cmd s).tfOf).map TF.trapno = some T_GPFLT ∧
    (do_get L tf cmd s).sys.map Sys.child = some s.child := by
  obtain ⟨_, e1c, _⟩ := getRegs_ok_inv L tf cmd _ s s1 hregs
  unfold do_get
  rw [if_neg (by simp [hrun]), if_neg (by simp [hstop]), hregs]
  simp only [SOut.bind]
  rcases getMemop_shape L tf cmd (getResolve s (tf.edx % 256)) s1 with
    ⟨s2, e2, e2c, _, _⟩ | e2
  · rw [e2]
    simp only [SOut.bind]
    rcases getPerm_shape L tf cmd s2 with ⟨s3, e3, e3c, _, _⟩ | e3
    · rw [e3]
      simp only [SOut.bind]
      rw [if_pos hsnap]
      exact ⟨rfl, by simp only [SOut.sys, Option.map]; rw [e3c, e2c, e1c]⟩
    · rw [e3]
      simp only [SOut.bind]
      exact ⟨rfl, by simp only [SOut.sys, Option.map]; rw [e2c, e1c]⟩
  · rw [e2]
    simp only [SOut.bind]
    exact ⟨rfl, by simp only [SOut.sys, Option.map]; rw [e1c]⟩

/-- C5 witness: a concrete GET with the SNAP bit reflects `T_GPFLT` and
leaves the child table unchanged. -/
theorem claim_C5_get_snap_rejected_witness :
    ((do_get pios wTF (SYS_GET ||| SYS_SNAP) wSys).tfOf).map TF.trapno =
      some T_GPFLT ∧
    (do_get pios wTF (SYS_GET ||| SYS_SNAP) wSys).sys.map Sys.child =
      some wSys.child :=
  claim_C5_get_snap_rejected pios wTF (SYS_GET ||| SYS_SNAP) wSys wSys
    rfl rfl rfl (by decide)

/-- C6: a GET whose 8-bit-masked child index names an empty child slot
does not allocate a child: the operation resolves against the
distinguished null-process sentinel, which is in state STOP, and the
caller's child table is unchanged whatever the rest of the call does. -/
theorem claim_C6_null_process (L : Layout) (tf : TF) (cmd : Nat) (s : Sys)
    (hrec : s.recover = false)
    (hempty : s.child (tf.edx % 256) = none) :
    getResolve s (tf.edx % 256) = procNull ∧
    procNull.state = PSt.stop ∧
    ∀ s1, (do_get L tf cmd s).sys = some s1 → s1.child = s.child := by
  refine ⟨?_, rfl, do_get_child_pres L tf cmd s hrec⟩
  unfold getResolve
  rw [hempty]

/-- C6 witness: a concrete GET on an empty slot resolves to the null
process and leaves the (empty) child table unchanged. -/
theorem claim_C6_null_process_witness :
    getResolve wSysNoChild (wTF.edx % 256) = procNull ∧
    procNull.state = PSt.stop ∧
    ((do_get pios wTF SYS_GET wSysNoChild).sys.getD wSysNoChild).child =
      wSysNoChild.child :=
  ⟨(claim_C6_null_process pios wTF SYS_GET wSysNoChild rfl rfl).1,
   (claim_C6_null_process pios wTF SYS_GET wSysNoChild rfl rfl).2.1,
   (claim_C6_null_process pios wTF SYS_GET wSysNoChild rfl rfl).2.2 _ rfl⟩

/-- C10 (implicit): in the REGS steps of both PUT and GET, after the
guarded `usercopy` completes — the per-CPU recovery handler installed
for it having been cleared again on its way out — the handler performs a
second, direct `memcpy` through the raw user save-area pointer
(syscall.c:142 and 237).  The access log records exactly two transfers
over the same user range: the `usercopy` one with the recovery handler
installed (`guarded = true`) and the raw one with no recovery handler
installed (`guarded = false`). -/
theorem claim_C10_raw_memcpy_unguarded :
    (∀ (L : Layout) (tf : TF) (cmd cn : Nat) (s : Sys) (x : ProcState),
      cmd &&& SYS_REGS ≠ 0 →
      checkvaFail L tf.ebx (lenOf L cmd) = false →
      s.recover = false →
      s.psmem tf.ebx = some x →
      (putRegs L tf cmd cn s).sys.map Sys.log =
        some (s.log ++ [⟨false, tf.ebx, lenOf L cmd, true⟩,
                        ⟨false, tf.ebx, lenOf L cmd, false⟩])) ∧
    (∀ (L : Layout) (tf : TF) (cmd : Nat) (cp : Proc) (s : Sys) (y : ProcState),
      cmd &&& SYS_REGS ≠ 0 →
      checkvaFail L tf.ebx (lenOf L cmd) = false →
      s.recover = false →
      s.psmem tf.ebx = some y →
      (getRegs L tf cmd cp s).sys.map Sys.log =
        some (s.log ++ [⟨true, tf.ebx, lenOf L cmd, true⟩,
                        ⟨true, tf.ebx, lenOf L cmd, false⟩])) := by
  constructor
  · intro L tf cmd cn s x hre hcv hrec hx
    unfold putRegs
    rw [if_neg hre, if_neg (by simp [hcv]), if_neg (by simp [hrec]), hx]
    rfl
  · intro L tf cmd cp s y hre hcv hrec hy
    unfold getRegs
    rw [if_neg hre, if_neg (by simp [hcv]), if_neg (by simp [hrec]), hy]
    rfl

/-- C10 witness: concrete PUT REGS and GET REGS steps, each logging the
guarded copy followed by the unguarded raw one. -/
theorem claim_C10_raw_memcpy_unguarded_witness :
    (putRegs pios wTF (SYS_PUT ||| SYS_REGS) 3 wSys).sys.map Sys.log =
      some (wSys.log ++ [⟨false, wTF.ebx, lenOf pios (SYS_PUT ||| SYS_REGS), true⟩,
                         ⟨false, wTF.ebx, lenOf pios (SYS_PUT ||| SYS_REGS), false⟩]) ∧
    (getRegs pios wTF (SYS_GET ||| SYS_REGS) wChild wSys).sys.map Sys.log =
      some (wSys.log ++ [⟨true, wTF.ebx, lenOf pios (SYS_GET ||| SYS_REGS), true⟩,
                         ⟨true, wTF.ebx, lenOf pios (SYS_GET ||| SYS_REGS), false⟩]) :=
  ⟨claim_C10_raw_memcpy_unguarded.1 pios wTF (SYS_PUT ||| SYS_REGS) 3 wSys psZero
      (by decide) (by decide) rfl rfl,
   claim_C10_raw_memcpy_unguarded.2 pios wTF (SYS_GET ||| SYS_REGS) wChild wSys psZero
      (by decide) (by decide) rfl rfl⟩

/-- C7: a successful PUT with REGS writing register state `x` into a
stopped child, followed by a successful GET with REGS (same FPU
selection) from the same child, delivers to user space exactly `x`
modulo the forced rewrite PUT applied: the trapframe part comes back as
`forceTF x.tf` (user-mode selectors, masked eflags, interrupt flag set),
and the FPU block comes back as `x.fx` when the whole save-area moves,
or is left as the destination cell's old FPU block when only the integer
registers move. -/
theorem claim_C7_regs_roundtrip (L : Layout) (tf1 tf2 : TF) (cmd1 cmd2 : Nat)
    (s : Sys) (c : Proc) (x y : ProcState)
    (hrun : s.pproc.state = PSt.run)
    (hrec : s.recover = false)
    (hc : s.child (tf1.edx % 256) = some c)
    (hstop : c.state = PSt.stop)
    (hedx : tf2.edx % 256 = tf1.edx % 256)
    (hx : s.psmem tf1.ebx = some x)
    (hy : s.psmem tf2.ebx = some y)
    (hr1 : cmd1 &&& SYS_REGS ≠ 0) (hm1 : cmd1 &&& SYS_MEMOP = 0)
    (hp1 : cmd1 &&& SYS_PERM = 0) (hs1 : cmd1 &&& SYS_SNAP = 0)
    (hst1 : cmd1 &&& SYS_START = 0)
    (hr2 : cmd2 &&& SYS_REGS ≠ 0) (hm2 : cmd2 &&& SYS_MEMOP = 0)
    (hp2 : cmd2 &&& SYS_PERM = 0) (hs2 : cmd2 &&& SYS_SNAP = 0)
    (hfpu : cmd1 &&& SYS_FPU = 0 ↔ cmd2 &&& SYS_FPU = 0)
    (hv1 : checkvaFail L tf1.ebx (lenOf L cmd1) = false)
    (hv2 : checkvaFail L tf2.ebx (lenOf L cmd2) = false) :
    (runPutGet L tf1 cmd1 tf2 cmd2 s).map (fun s2 => s2.psmem tf2.ebx) =
      some (some { tf := forceTF x.tf,
                   fx := if cmd2 &&& SYS_FPU ≠ 0 then x.fx else y.fx }) := by
  set fP : Proc → Proc := fun c0 =>
    { c0 with sv := forceSV (svWrite (svWrite c0.sv x (cmd1 &&& SYS_FPU ≠ 0)) x
        (cmd1 &&& SYS_FPU ≠ 0)) } with hfP
  set sP : Sys :=
    { s with
      child := chupd s.child (tf1.edx % 256) fP,
      log := s.log ++ [⟨false, tf1.ebx, lenOf L cmd1, true⟩,
                       ⟨false, tf1.ebx, lenOf L cmd1, false⟩] } with hsP
  have eRegs : putRegs L tf1 cmd1 (tf1.edx % 256) s = SOut.ok sP := by
    unfold putRegs
    rw [if_neg hr1, if_neg (by simp [hv1]), if_neg (by simp [hrec]), hx]
  have ePut : do_put L tf1 cmd1 s = SOut.ok sP := by
    unfold do_put
    rw [show allocChild s (tf1.edx % 256) = s from by unfold allocChild; rw [hc]]
    rw [if_neg (by simp [hrun]), if_neg (by simp [getChild, hc, hstop]), eRegs]
    simp only [SOut.bind]
    rw [show putMemop L tf1 cmd1 (tf1.edx % 256) sP = SOut.ok sP from by
      unfold putMemop; rw [if_pos hm1]]
    simp only [SOut.bind]
    rw [show putPerm L tf1 cmd1 (tf1.edx % 256) sP = SOut.ok sP from by
      unfold putPerm; rw [if_pos hp1]]
    simp only [SOut.bind]
    rw [show putSnap L cmd1 (tf1.edx % 256) sP = sP from by
      unfold putSnap; rw [if_neg (by simp [hs1])]]
    rw [show putStart cmd1 (tf1.edx % 256) sP = sP from by
      unfold putStart; rw [if_neg (by simp [hst1])]]
  have hsPrun : sP.pproc.state = PSt.run := hrun
  have hsPrec : sP.recover = false := hrec
  have hsPmem : sP.psmem tf2.ebx = some y := hy
  have hsPchild : sP.child (tf2.edx % 256) = some (fP c) := by
    rw [hsP, hedx]
    dsimp only
    rw [chupd_self, hc]
    rfl
  have eRes : getResolve sP (tf2.edx % 256) = fP c := by
    unfold getResolve
    rw [hsPchild]
  have hstop2 : (fP c).state = PSt.stop := hstop
  set sG : Sys :=
    { sP with
      psmem := fun a => if a = tf2.ebx then
          some (svWrite (svWrite y (fP c).sv (cmd2 &&& SYS_FPU ≠ 0)) (fP c).sv
            (cmd2 &&& SYS_FPU ≠ 0))
        else sP.psmem a,
      log := sP.log ++ [⟨true, tf2.ebx, lenOf L cmd2, true⟩,
                        ⟨true, tf2.ebx, lenOf L cmd2, false⟩] } with hsG
  have eGRegs : getRegs L tf2 cmd2 (fP c) sP = SOut.ok sG := by
    unfold getRegs
    rw [if_neg hr2, if_neg (by simp [hv2]), if_neg (by simp [hsPrec, hrec]), hsPmem]
  have eGet : do_get L tf2 cmd2 sP = SOut.ok sG := by
    unfold do_get
    rw [eRes, if_neg (by simp [hsPrun, hrun]), if_neg (by simp [hstop2, hstop]), eGRegs]
    simp only [SOut.bind]
    rw [show getMemop L tf2 cmd2 (fP c) sG = SOut.ok sG from by
      unfold getMemop; rw [if_pos hm2]]
    simp only [SOut.bind]
    rw [show getPerm L tf2 cmd2 sG = SOut.ok sG from by
      unfold getPerm; rw [if_pos hp2]]
    simp only [SOut.bind]
    rw [if_neg (by simp [hs2])]
  unfold runPutGet
  simp only [ePut, eGet, Option.map]
  simp only [if_true]
  by_cases hw : cmd2 &&& SYS_FPU = 0
  · have hw1 : cmd1 &&& SYS_FPU = 0 := hfpu.mpr hw
    simp [svWrite, forceSV, hw, hw1]
  · have hw1 : ¬cmd1 &&& SYS_FPU = 0 := fun h => hw (hfpu.mp h)
    simp [svWrite, forceSV, hw, hw1]

/-- C7 witness: a concrete PUT(REGS) of the zero register state into the
stopped child followed by GET(REGS) from it delivers the forced-rewrite
image of that state to the user's destination cell. -/
theorem claim_C7_regs_roundtrip_witness :
    (runPutGet pios wTF (SYS_PUT ||| SYS_REGS) wTF2 (SYS_GET ||| SYS_REGS)
        wSys).map (fun s2 => s2.psmem wTF2.ebx) =
      some (some { tf := forceTF psZero.tf,
                   fx := if (SYS_GET ||| SYS_REGS) &&& SYS_FPU ≠ 0 then psZero.fx
                     else psZero.fx }) :=
  claim_C7_regs_roundtrip pios wTF wTF2 (SYS_PUT ||| SYS_REGS)
    (SYS_GET ||| SYS_REGS) wSys wChild psZero psZero
    rfl rfl rfl rfl rfl rfl rfl
    (by decide) (by decide) (by decide) (by decide) (by decide)
    (by decide) (by decide) (by decide) (by decide)
    (by decide) (by decide) (by decide)

end PiosSyscall
